import Mathlib

/-!
Verification of the adaptive feed-polling engine of the rssskull repository.

The Python source is shallowly embedded: each class's mutable dictionaries
become functions `String → Option α` updated explicitly, wall-clock readings
(`time.time()`, `datetime.utcnow()`) become explicit parameters, floats become
rationals, and datetimes become natural-number timestamps.  External
collaborators (the network, the cache backend, the chat backend) are supplied
as oracle inputs.
-/

/-- Pointwise update of a string-keyed dictionary, modelling `d[k] = v`
(with `v = none` modelling `del d[k]`). -/
def updFn {α : Type} (f : String → Option α) (k : String) (v : Option α) :
    String → Option α :=
  fun k' => if k' = k then v else f k'

/-! ## Rate limiter (`app/utils/rate_limiter.py`) -/

/-- State of `RateLimiter`: per-domain adaptive delays.  `domain_delays`,
`last_request_time` and `failure_counts` are the three dictionaries of the
Python class; `min_delay`/`max_delay` the constructor arguments
(defaults 5.0 and 300.0). -/
structure RateLimiter where
  domain_delays : String → Option ℚ
  last_request_time : String → Option ℚ
  failure_counts : String → Option ℕ
  min_delay : ℚ
  max_delay : ℚ

/-- A freshly constructed `RateLimiter(min_delay, max_delay)`: all three
dictionaries empty. -/
def RateLimiter.init (minDelay maxDelay : ℚ) : RateLimiter :=
  ⟨fun _ => none, fun _ => none, fun _ => none, minDelay, maxDelay⟩

/-- `RateLimiter.get_current_delay`: the stored delay, defaulting to
`min_delay`. -/
def RateLimiter.get_current_delay (rl : RateLimiter) (domain : String) : ℚ :=
  (rl.domain_delays domain).getD rl.min_delay

/-- State effect of `RateLimiter.wait_if_needed`: the sleep itself has no
state effect beyond setting `last_request_time[domain]` to the current time
on return. -/
def RateLimiter.wait_if_needed (rl : RateLimiter) (domain : String) (now : ℚ) :
    RateLimiter :=
  { rl with last_request_time := updFn rl.last_request_time domain (some now) }

/-- `RateLimiter.record_success`: delay decays by factor 0.9, floored at
`min_delay`; consecutive failures reset to 0. -/
def RateLimiter.record_success (rl : RateLimiter) (domain : String) :
    RateLimiter :=
  let current_delay := (rl.domain_delays domain).getD rl.min_delay
  let new_delay := max rl.min_delay (current_delay * (9 / 10))
  { rl with
    domain_delays := updFn rl.domain_delays domain (some new_delay)
    failure_counts := updFn rl.failure_counts domain (some 0) }

/-- `RateLimiter.record_failure`: increment the consecutive-failure count,
then multiply the delay by 2 (status 429), by 3 (status 403 with at least 3
consecutive failures) or by 1.5 (otherwise), clamped at `max_delay`. -/
def RateLimiter.record_failure (rl : RateLimiter) (domain : String)
    (status_code : ℕ) : RateLimiter :=
  let failures := (rl.failure_counts domain).getD 0 + 1
  let current_delay := (rl.domain_delays domain).getD rl.min_delay
  let new_delay :=
    if status_code = 429 then min rl.max_delay (current_delay * 2)
    else if status_code = 403 ∧ 3 ≤ failures then
      min rl.max_delay (current_delay * 3)
    else min rl.max_delay (current_delay * (3 / 2))
  { rl with
    domain_delays := updFn rl.domain_delays domain (some new_delay)
    failure_counts := updFn rl.failure_counts domain (some failures) }

/-- The delay invariant claimed by the spec: `min_delay ≤ current_delay ≤
max_delay` for every stored delay, together with the configuration sanity
conditions `0 ≤ min_delay ≤ max_delay` satisfied by the defaults (5, 300). -/
def RateLimiter.DelayInv (rl : RateLimiter) : Prop :=
  0 ≤ rl.min_delay ∧ rl.min_delay ≤ rl.max_delay ∧
    ∀ d q, rl.domain_delays d = some q → rl.min_delay ≤ q ∧ q ≤ rl.max_delay

/-! ## Circuit breaker (`app/utils/circuit_breaker.py`) -/

/-- The three states of the per-resource circuit breaker. -/
inductive BreakerState where
  | closed
  | opened
  | halfOpen
deriving DecidableEq, Repr

/-- State of `CircuitBreaker`: the three dictionaries of the Python class plus
the configuration fields.  `max_timeout` is hard-coded to 86400 in the
constructor. -/
structure CircuitBreaker where
  states : String → Option BreakerState
  failure_counts : String → Option ℕ
  open_until : String → Option ℚ
  failure_threshold : ℕ
  initial_timeout : ℚ
  max_timeout : ℚ

/-- A freshly constructed `CircuitBreaker(failure_threshold, initial_timeout)`
(defaults 5 and 3600). -/
def CircuitBreaker.init (threshold : ℕ) (initialTimeout : ℚ) : CircuitBreaker :=
  ⟨fun _ => none, fun _ => none, fun _ => none, threshold, initialTimeout, 86400⟩

/-- `CircuitBreaker.get_state`: stored state, defaulting to closed. -/
def CircuitBreaker.get_state (cb : CircuitBreaker) (feed_id : String) :
    BreakerState :=
  (cb.states feed_id).getD .closed

/-- `CircuitBreaker.should_allow_request` at time `now`: closed and half-open
allow; open allows exactly when `open_until` has passed, flipping the state to
half-open as a side effect.  Returns the decision together with the updated
breaker. -/
def CircuitBreaker.should_allow_request (cb : CircuitBreaker) (feed_id : String)
    (now : ℚ) : Bool × CircuitBreaker :=
  match (cb.states feed_id).getD .closed with
  | .closed => (true, cb)
  | .opened =>
    if (cb.open_until feed_id).getD 0 ≤ now then
      (true, { cb with states := updFn cb.states feed_id (some .halfOpen) })
    else (false, cb)
  | .halfOpen => (true, cb)

/-- `CircuitBreaker.record_success`: state closed, failure count zero, and the
`open_until` entry deleted. -/
def CircuitBreaker.record_success (cb : CircuitBreaker) (feed_id : String) :
    CircuitBreaker :=
  { cb with
    states := updFn cb.states feed_id (some .closed)
    failure_counts := updFn cb.failure_counts feed_id (some 0)
    open_until := updFn cb.open_until feed_id none }

/-- `CircuitBreaker.record_failure` at time `now` (our single `now` models the
repeated `time.time()` calls of the method body).  In half-open state the
breaker re-opens with timeout `2 × (open_until − now)` capped at `max_timeout`
when that remaining time is positive, else with `initial_timeout`.  Otherwise
the breaker opens with `initial_timeout` once `failure_threshold` failures
accumulate.  (The alert side channel of the Python method is not part of the
state.) -/
def CircuitBreaker.record_failure (cb : CircuitBreaker) (feed_id : String)
    (now : ℚ) : CircuitBreaker :=
  let failures := (cb.failure_counts feed_id).getD 0 + 1
  let cb1 := { cb with failure_counts := updFn cb.failure_counts feed_id (some failures) }
  match (cb.states feed_id).getD .closed with
  | .halfOpen =>
    let current_timeout := (cb.open_until feed_id).getD now - now
    let new_timeout :=
      if 0 < current_timeout then min cb.max_timeout (current_timeout * 2)
      else cb.initial_timeout
    { cb1 with
      open_until := updFn cb1.open_until feed_id (some (now + new_timeout))
      states := updFn cb1.states feed_id (some .opened) }
  | _ =>
    if cb.failure_threshold ≤ failures then
      { cb1 with
        states := updFn cb1.states feed_id (some .opened)
        open_until := updFn cb1.open_until feed_id (some (now + cb.initial_timeout)) }
    else cb1

/-! ## Feed model and delta engine (`app/services/rss_service.py`) -/

/-- Python string falsiness for `Optional[str]` values: `None` and the empty
string are falsy. -/
def strFalsy : Option String → Bool
  | none => true
  | some s => s.isEmpty

/-- `RSSItem` (the fields the engine reads).  Datetimes are modelled as
natural-number timestamps; `datetime.min` is the least timestamp 0. -/
structure RSSItem where
  id : String
  title : String
  link : String
  description : Option String := none
  pub_date : Option ℕ := none
deriving DecidableEq, Repr

/-- `RSSFeed`: the ordered item list plus feed metadata. -/
structure RSSFeed where
  items : List RSSItem
  title : Option String := none
  description : Option String := none
  link : Option String := none
deriving DecidableEq, Repr

/-- Result dictionary of `RSSService.get_new_items`; absent keys are `none`. -/
structure NewItemsResult where
  items : List RSSItem
  totalItemsCount : ℕ
  lastItemIdToSave : Option String := none
  firstItemId : Option String := none
deriving DecidableEq, Repr

/-- The selection loop of `get_new_items`: keep every item whose `pub_date`
is present and strictly newer than `last_item_date`; items without a
`pub_date` are skipped. -/
def collectNewItems : List RSSItem → ℕ → List RSSItem
  | [], _ => []
  | item :: rest, last_item_date =>
    match item.pub_date with
    | some d =>
      if last_item_date < d then item :: collectNewItems rest last_item_date
      else collectNewItems rest last_item_date
    | none => collectNewItems rest last_item_date

/-- Sort key of `get_new_items`: `x.pub_date or datetime.min`. -/
def sortKey (item : RSSItem) : ℕ :=
  item.pub_date.getD 0

/-- Descending-by-date comparison used to model Python's stable
`list.sort(key=..., reverse=True)`; ties keep their original order under a
stable sort, so `List.mergeSort` with this relation reproduces it exactly. -/
def newerLE (a b : RSSItem) : Bool :=
  sortKey b ≤ sortKey a

/-- `RSSService.get_new_items`, with the fetch replaced by its result
(`none` models a failed fetch or a missing feed). -/
def get_new_items (fetchResult : Option RSSFeed) (last_item_id : Option String)
    (last_item_date : Option ℕ) : NewItemsResult :=
  match fetchResult with
  | none => { items := [], totalItemsCount := 0 }
  | some feed =>
    match feed.items with
    | [] => { items := [], totalItemsCount := 0 }
    | first_item :: _ =>
      let total_items_count := feed.items.length
      let first_item_id := first_item.id
      if strFalsy last_item_id then
        { items := []
          totalItemsCount := total_items_count
          lastItemIdToSave := some first_item_id
          firstItemId := some first_item_id }
      else
        match last_item_date with
        | none =>
          { items := [first_item]
            totalItemsCount := total_items_count
            firstItemId := some first_item_id }
        | some last_date =>
          let new_items := collectNewItems feed.items last_date
          if new_items.isEmpty then
            { items := []
              totalItemsCount := total_items_count
              firstItemId := some first_item_id }
          else
            { items := new_items.mergeSort newerLE
              totalItemsCount := total_items_count
              firstItemId := some first_item_id }

/-! ## Feed checker (`app/jobs/feed_checker.py`) -/

/-- Python falsiness for optional numeric fields (`max_age_minutes`): `None`
and 0 are falsy. -/
def natFalsy : Option ℕ → Bool
  | none => true
  | some n => n = 0

/-- The persistent `Feed` row fields read by `FeedChecker.check_feed`. -/
structure Feed where
  id : String
  chat_id : String
  name : String
  url : String
  rss_url : Option String := none
  last_item_id : Option String := none
  last_notified_at : Option ℕ := none
  last_seen_at : Option ℕ := none
  last_check : Option ℕ := none
  check_interval_minutes : ℕ := 5
  max_age_minutes : Option ℕ := none
deriving DecidableEq, Repr

/-- Observable events of one `check_feed` execution, in program order:
the state-update commit (`feed_service.update_feed_last_check`) and each
notification attempt (`bot_service.send_message`, HTML then plain-text
fallback). -/
inductive CheckEvent where
  | commit (last_item_id : Option String) (last_notified_at : Option ℕ)
  | notifyHtml (item_id : String)
  | notifyPlain (item_id : String)
deriving DecidableEq, Repr

/-- Whether a check event is the state-update commit. -/
def CheckEvent.isCommit : CheckEvent → Bool
  | .commit _ _ => true
  | _ => false

/-- Whether a check event is a notification attempt. -/
def CheckEvent.isNotify : CheckEvent → Bool
  | .commit _ _ => false
  | _ => true

/-- The notification loop of `check_feed` over the new items: items older
than `max_age_minutes` (when that field is truthy) are skipped; otherwise an
HTML send is attempted and, when it fails, a plain-text send.  `htmlOk` and
`plainOk` are the chat-backend oracle (`send_message` returning non-None).
Returns the events and the number of notifications sent. -/
def notifyLoop (feed : Feed) (now : ℕ) (htmlOk plainOk : RSSItem → Bool) :
    List RSSItem → List CheckEvent × ℕ
  | [] => ([], 0)
  | item :: rest =>
    let r := notifyLoop feed now htmlOk plainOk rest
    let skip : Bool :=
      !natFalsy feed.max_age_minutes &&
        match item.pub_date with
        | some d => decide ((feed.max_age_minutes.getD 0 * 60 : ℤ) < (now : ℤ) - (d : ℤ))
        | none => false
    if skip then r
    else if htmlOk item then (.notifyHtml item.id :: r.1, r.2 + 1)
    else if plainOk item then
      (.notifyHtml item.id :: .notifyPlain item.id :: r.1, r.2 + 1)
    else (.notifyHtml item.id :: .notifyPlain item.id :: r.1, r.2)

/-- `FeedChecker.check_feed`, as a pure function of the feed row, the fetched
feed (the oracle result used by both `get_new_items` and the baseline
re-fetch; the 5-minute feed cache makes the two fetches coincide), the
current time and the chat-backend oracle.  Returns the event trace plus the
committed `(last_item_id, last_notified_at)` pair. -/
def check_feed (feed : Feed) (fetchResult : Option RSSFeed) (now : ℕ)
    (htmlOk plainOk : RSSItem → Bool) :
    List CheckEvent × (Option String × Option ℕ) × ℕ :=
  let last_item_id := feed.last_item_id
  let last_item_date :=
    match feed.last_notified_at with
    | some d => some d
    | none => feed.last_seen_at
  let result := get_new_items fetchResult last_item_id last_item_date
  let new_items := result.items
  let first_item_id := result.firstItemId
  let upd : Option String × Option ℕ :=
    if !strFalsy result.lastItemIdToSave then
      -- first time processing: baseline from the most recent item of the feed
      let base : ℕ :=
        match fetchResult with
        | some f =>
          match f.items with
          | most_recent :: _ => most_recent.pub_date.getD now
          | [] => now
        | none => now
      (result.lastItemIdToSave, some base)
    else
      match new_items with
      | most_recent :: _ =>
        (some most_recent.id, some (most_recent.pub_date.getD now))
      | [] =>
        if !strFalsy first_item_id then (first_item_id, none)
        else (last_item_id, none)
  let nl := notifyLoop feed now htmlOk plainOk new_items
  (.commit upd.1 upd.2 :: nl.1, (upd.1, upd.2), nl.2)

/-! ## Blocking statistics (`app/services/blocking_stats_service.py`) -/

/-- The counters and learned fields of a persistent `BlockingStats` row
(timestamp columns, which only record wall-clock times, are omitted). -/
structure BlockingStats where
  total_requests : ℕ
  successful_requests : ℕ
  blocked_requests : ℕ
  rate_limited_requests : ℕ
  current_delay : ℚ
  circuit_breaker_state : String
  preferred_user_agent : Option String := none
deriving DecidableEq, Repr

/-- The `blocking_stats` table, keyed by domain. -/
def StatsDb := String → Option BlockingStats

/-- `BlockingStatsService.get_or_create_stats`: the stored row, or a fresh one
with zero counters, delay 5.0 and state "closed". -/
def get_or_create_stats (db : StatsDb) (domain : String) : BlockingStats :=
  (db domain).getD
    { total_requests := 0, successful_requests := 0, blocked_requests := 0
      rate_limited_requests := 0, current_delay := 5, circuit_breaker_state := "closed" }

/-- `BlockingStatsService.record_request_success`: total and success counters
increment; preferred UA updates when truthy; delay updates when not None. -/
def record_request_success (db : StatsDb) (domain : String)
    (user_agent : Option String) (delay : Option ℚ) : StatsDb :=
  let stats := get_or_create_stats db domain
  let stats :=
    if !strFalsy user_agent then { stats with preferred_user_agent := user_agent }
    else stats
  let stats :=
    match delay with
    | some d => { stats with current_delay := d }
    | none => stats
  updFn db domain (some { stats with
    total_requests := stats.total_requests + 1
    successful_requests := stats.successful_requests + 1 })

/-- `BlockingStatsService.record_request_failure`: total increments; the 403
and 429 buckets increment only for those status codes; delay and breaker
state update when provided (breaker state when truthy). -/
def record_request_failure (db : StatsDb) (domain : String) (status_code : ℕ)
    (delay : Option ℚ) (circuit_breaker_state : Option String) : StatsDb :=
  let stats := get_or_create_stats db domain
  let stats := { stats with total_requests := stats.total_requests + 1 }
  let stats :=
    if status_code = 403 then
      { stats with blocked_requests := stats.blocked_requests + 1 }
    else if status_code = 429 then
      { stats with rate_limited_requests := stats.rate_limited_requests + 1 }
    else stats
  let stats :=
    match delay with
    | some d => { stats with current_delay := d }
    | none => stats
  let stats :=
    if !strFalsy circuit_breaker_state then
      { stats with circuit_breaker_state := circuit_breaker_state.getD "" }
    else stats
  updFn db domain (some stats)

/-! ## Feed fetcher (`RSSService._fetch_feed_from_url`) -/

/-- The string stored for a breaker state (`CircuitBreaker.STATE_*`). -/
def stateStr : BreakerState → String
  | .closed => "closed"
  | .opened => "open"
  | .halfOpen => "half_open"

/-- Python `a or b` on optional strings (empty string falsy). -/
def pyOrStr (a b : Option String) : Option String :=
  if strFalsy a then b else a

/-- A raw feedparser entry.  `published_parsed` is `some v` when the
attribute is present and truthy, with `v` the result of the
`datetime(*entry.published_parsed[:6])` conversion (`none` when it raises);
`published` likewise carries the result of parsing the RFC-2822 `published`
string when that attribute is present. -/
structure FeedEntry where
  id : Option String := none
  guid : Option String := none
  link : Option String := none
  title : Option String := none
  description : Option String := none
  summary : Option String := none
  published_parsed : Option (Option ℕ) := none
  published : Option (Option ℕ) := none
deriving DecidableEq, Repr

/-- The `pub_date` extraction of the entry-conversion loop. -/
def entryPubDate (e : FeedEntry) : Option ℕ :=
  match e.published_parsed with
  | some v => v
  | none =>
    match e.published with
    | some v => v
    | none => none

/-- The id selection of the entry-conversion loop:
`entry.get("id") or entry.get("guid") or entry.get("link") or
entry.get("title", "")`. -/
def entryItemId (e : FeedEntry) : Option String :=
  pyOrStr (pyOrStr (pyOrStr e.id e.guid) e.link) (some (e.title.getD ""))

/-- The entry-conversion loop: entries whose selected id is falsy are
skipped; the rest become `RSSItem`s. -/
def convertEntries : List FeedEntry → List RSSItem
  | [] => []
  | e :: rest =>
    if strFalsy (entryItemId e) then convertEntries rest
    else
      { id := (entryItemId e).getD ""
        title := e.title.getD ""
        link := e.link.getD ""
        description := pyOrStr e.description e.summary
        pub_date := entryPubDate e } :: convertEntries rest

/-- An HTTP response as seen by the fetcher, with the feedparser output of its
body folded in (`bozo`, `entries`, feed-level metadata). -/
structure HttpResponse where
  status : ℕ
  etag : Option String := none
  last_modified : Option String := none
  bozo : Bool := false
  entries : List FeedEntry := []
  feed_title : Option String := none
  feed_description : Option String := none
  feed_link : Option String := none
deriving Repr

/-- Network oracle for one attempt of the retry loop: the GET times out,
raises an exception (with an optional `status` attribute), or yields a
response. -/
inductive AttemptOutcome where
  | timeout
  | raised (status : Option ℕ)
  | response (resp : HttpResponse)

/-- A cached parsed feed (the `feed:{url}` cache value after its items'
`pubDate` strings have been re-parsed). -/
structure CachedFeed where
  items : List RSSItem
  title : Option String := none
  description : Option String := none
  link : Option String := none
deriving DecidableEq, Repr

/-- Oracle inputs of one `_fetch_feed_from_url` call: the cache read results
(the cache is an external best-effort store, so the read at a 304 is a
separate oracle, indexed by attempt), the per-attempt network outcome and
chosen user agent, and the clock. -/
structure FetchEnv where
  initial_cached : Option CachedFeed
  cached_at_304 : ℕ → Option CachedFeed
  outcome : ℕ → AttemptOutcome
  user_agent : ℕ → String
  now : ℚ

/-- The in-process singletons mutated by a fetch. -/
structure FetchState where
  rl : RateLimiter
  cb : CircuitBreaker
  stats : StatsDb

/-- The `{'success': ..., 'feed': ..., 'error': ...}` result dictionary. -/
structure FetchResult where
  success : Bool
  feed : Option RSSFeed := none
  error : Option String := none

/-- Calls a fetch makes into its collaborators, logged in program order. -/
inductive FetchEvent where
  | cacheDelete (key : String)
  | cacheSet (key : String)
  | uaFailure (domain ua : String)
  | uaSuccess (domain ua : String)
  | statsFailure (domain : String) (status : ℕ)
  | statsSuccess (domain : String)
  | alertBlockCheck (domain : String) (status : ℕ)
  | resetConsecutiveBlocks (domain : String)
deriving DecidableEq, Repr

/-- `RSSService.extract_domain`: `urlparse(url).netloc` or the first path
segment when there is no scheme. -/
def extract_domain (url : String) : String :=
  match url.splitOn "://" with
  | [] => url
  | [_] => ((url.splitOn "/").headD url)
  | _ :: rest :: _ => ((rest.splitOn "/").headD rest)

/-- The `except asyncio.TimeoutError` handler of the retry loop: rate
limiter, UA pool and circuit breaker record a failure, then the database
records a status-0 failure with the updated delay and breaker state. -/
def handleTimeout (st : FetchState) (url domain ua : String) (now : ℚ) :
    FetchState × List FetchEvent :=
  let rl1 := st.rl.record_failure domain 0
  let cb1 := st.cb.record_failure url now
  let stats1 := record_request_failure st.stats domain 0
    (some (rl1.get_current_delay domain)) (some (stateStr (cb1.get_state url)))
  (⟨rl1, cb1, stats1⟩, [.uaFailure domain ua, .statsFailure domain 0])

/-- The generic `except Exception` handler of the retry loop: the status code
is read off the exception (`0` when it has no `status` attribute, as for the
plain exceptions raised on non-2xx and parse errors), then the same four
failure recordings run as for a timeout. -/
def handleExcept (st : FetchState) (url domain ua : String) (status : ℕ)
    (now : ℚ) : FetchState × List FetchEvent :=
  let rl1 := st.rl.record_failure domain status
  let cb1 := st.cb.record_failure url now
  let stats1 := record_request_failure st.stats domain status
    (some (rl1.get_current_delay domain)) (some (stateStr (cb1.get_state url)))
  (⟨rl1, cb1, stats1⟩, [.uaFailure domain ua, .statsFailure domain status])

/-- The `if not response.ok` block: rate limiter and UA pool record the
failure with the real status, the database records it and block/low-rate
alerts are checked, and then the raised exception lands in the generic
handler, which records the same failure again with status 0. -/
def handleNotOk (st : FetchState) (url domain ua : String) (status : ℕ)
    (now : ℚ) : FetchState × List FetchEvent :=
  let rl1 := st.rl.record_failure domain status
  let stats1 := record_request_failure st.stats domain status
    (some (rl1.get_current_delay domain)) (some (stateStr (st.cb.get_state url)))
  let (st2, evs2) := handleExcept ⟨rl1, st.cb, stats1⟩ url domain ua 0 now
  (st2,
    [.uaFailure domain ua, .statsFailure domain status,
      .alertBlockCheck domain status] ++ evs2)

/-- The 2xx tail of the retry loop: convert the entries, cache the feed (only
when non-empty) and the validators (only when present), and record success in
the rate limiter, UA pool, circuit breaker and the database. -/
def handleParsed (st : FetchState) (url domain ua : String)
    (resp : HttpResponse) : FetchState × List FetchEvent × RSSFeed :=
  let items := convertEntries resp.entries
  let feed : RSSFeed :=
    { items := items, title := resp.feed_title
      description := resp.feed_description, link := resp.feed_link }
  let cacheEvs :=
    (if !items.isEmpty then [FetchEvent.cacheSet ("feed:" ++ url)] else []) ++
      (if !strFalsy resp.etag || !strFalsy resp.last_modified then
        [FetchEvent.cacheSet ("feed_meta:" ++ url)]
      else [])
  let rl1 := st.rl.record_success domain
  let cb1 := st.cb.record_success url
  let stats1 := record_request_success st.stats domain (some ua)
    (some (rl1.get_current_delay domain))
  (⟨rl1, cb1, stats1⟩,
    cacheEvs ++
      [.uaSuccess domain ua, .statsSuccess domain, .resetConsecutiveBlocks domain],
    feed)

/-- One iteration of the retry loop, from header construction to either a
returned result (`some`) or a recorded error (`none`, with the error text).
The 304 branch consults the cache oracle: a non-empty cached feed is returned
as-is; an empty one is cleared and the (empty, bozo) 304 body falls through
to normal processing, as in the source. -/
def fetchAttempt (env : FetchEnv) (url domain : String) (attempt : ℕ)
    (st : FetchState) :
    Option (FetchResult) × Option String × FetchState × List FetchEvent :=
  let ua := env.user_agent attempt
  match env.outcome attempt with
  | .timeout =>
    let (st1, evs) := handleTimeout st url domain ua env.now
    (none, some "Timeout after 30s", st1, evs)
  | .raised status =>
    let (st1, evs) := handleExcept st url domain ua (status.getD 0) env.now
    (none, some "request error", st1, evs)
  | .response resp =>
    let normal : Option FetchResult × Option String × FetchState × List FetchEvent :=
      if 400 ≤ resp.status then
        let (st1, evs) := handleNotOk st url domain ua resp.status env.now
        (none, some ("HTTP " ++ toString resp.status), st1, evs)
      else if resp.bozo then
        let (st1, evs) := handleExcept st url domain ua 0 env.now
        (none, some "Feed parsing error", st1, evs)
      else
        let (st1, evs, feed) := handleParsed st url domain ua resp
        (some { success := true, feed := some feed }, none, st1, evs)
    if resp.status = 304 then
      match env.cached_at_304 attempt with
      | some c =>
        if c.items.isEmpty then
          (normal.1, normal.2.1,
            normal.2.2.1,
            [FetchEvent.cacheDelete ("feed:" ++ url),
              FetchEvent.cacheDelete ("feed_meta:" ++ url)] ++ normal.2.2.2)
        else
          (some { success := true
                  feed := some { items := c.items, title := c.title
                                 description := c.description, link := c.link } },
            none, st, [])
      | none => normal
    else normal

/-- The retry loop (`max_retries = 3`), returning the last error when all
attempts fail. -/
def fetchLoop (env : FetchEnv) (url domain : String) :
    ℕ → ℕ → FetchState → Option String → FetchResult × FetchState × List FetchEvent
  | 0, _, st, lastError =>
    ({ success := false, error := some (lastError.getD "Unknown error") }, st, [])
  | remaining + 1, attempt, st, _lastError =>
    match fetchAttempt env url domain attempt st with
    | (some r, _, st1, evs) => (r, st1, evs)
    | (none, err, st1, evs) =>
      let (r, st2, evs2) := fetchLoop env url domain remaining (attempt + 1) st1 err
      (r, st2, evs ++ evs2)

/-- `RSSService._fetch_feed_from_url`: circuit-breaker gate, cache fast path
(clearing an empty cached feed), rate-limiter wait, then the retry loop. -/
def fetch_feed_from_url (env : FetchEnv) (url : String) (st : FetchState) :
    FetchResult × FetchState × List FetchEvent :=
  let gate := st.cb.should_allow_request url env.now
  if !gate.1 then
    ({ success := false, error := some "Circuit breaker open" },
      { st with cb := gate.2 }, [])
  else
    let st := { st with cb := gate.2 }
    let afterCache : Option (FetchResult × FetchState × List FetchEvent) :=
      match env.initial_cached with
      | some c =>
        if !c.items.isEmpty then
          some ({ success := true
                  feed := some { items := c.items, title := c.title
                                 description := c.description, link := c.link } },
            st, [])
        else none
      | none => none
    match afterCache with
    | some r => r
    | none =>
      let clearEvs :=
        match env.initial_cached with
        | some _ =>
          [FetchEvent.cacheDelete ("feed:" ++ url),
            FetchEvent.cacheDelete ("feed_meta:" ++ url)]
        | none => []
      let domain := extract_domain url
      let st := { st with rl := st.rl.wait_if_needed domain env.now }
      let out := fetchLoop env url domain 3 1 st none
      (out.1, out.2.1, clearEvs ++ out.2.2)

/-! ## HTML sanitizer (`app/utils/html_sanitizer.py`)

The sanitizer is a pipeline of `re.sub` passes over the text.  Each pass is
embedded as a character-level scanner with the same left-to-right,
non-overlapping semantics as `re.sub`/`re.finditer`.  Strings are handled as
`List Char`. -/

/-- Python `\s` on the ASCII range (space, tab, newline, return, vertical
tab, form feed). -/
def isPySpace (c : Char) : Bool :=
  c = ' ' || c = '\t' || c = '\n' || c = '\r' || c = Char.ofNat 11 || c = Char.ofNat 12

/-- Case-insensitive anchored match of a lowercase pattern. -/
def matchCI : List Char → List Char → Bool
  | [], _ => true
  | _ :: _, [] => false
  | p :: ps, c :: cs => p = c.toLower && matchCI ps cs

/-- Suffix after the first (case-sensitive) occurrence of `pat`. -/
def afterFirst (pat : List Char) : List Char → Option (List Char)
  | [] => if pat.isEmpty then some [] else none
  | c :: cs =>
    if pat.isPrefixOf (c :: cs) then some ((c :: cs).drop pat.length)
    else afterFirst pat cs

/-- Suffix after the first case-insensitive occurrence of a lowercase
pattern. -/
def afterFirstCI (pat : List Char) : List Char → Option (List Char)
  | [] => none
  | c :: cs =>
    if matchCI pat (c :: cs) then some ((c :: cs).drop pat.length)
    else afterFirstCI pat cs

/-- Python `str.replace`: replace every occurrence left to right, continuing
after each replacement.  Fuel is the input length (each step consumes at
least one character). -/
def replaceAllFuel (pat repl : List Char) : ℕ → List Char → List Char
  | 0, s => s
  | _, [] => []
  | fuel + 1, c :: cs =>
    if !pat.isEmpty && pat.isPrefixOf (c :: cs) then
      repl ++ replaceAllFuel pat repl fuel ((c :: cs).drop pat.length)
    else c :: replaceAllFuel pat repl fuel cs

/-- Python `str.replace` at full fuel. -/
def replaceAll (pat repl s : List Char) : List Char :=
  replaceAllFuel pat repl s.length s

/-- Generic `re.sub` scanner: at each position, `step` either matches
(returning the replacement and the rest after the match, consuming at least
one character) or the character is copied. -/
def scanRewrite (step : List Char → Option (List Char × List Char)) :
    ℕ → List Char → List Char
  | 0, s => s
  | _, [] => []
  | fuel + 1, c :: cs =>
    match step (c :: cs) with
    | some (out, rest) => out ++ scanRewrite step fuel rest
    | none => c :: scanRewrite step fuel cs

/-- Split at the first `>`: the characters before it and the rest after it
(the `[^>]*>` idiom). -/
def takeUpToGt : List Char → Option (List Char × List Char)
  | [] => none
  | c :: cs =>
    if c = '>' then some ([], cs)
    else
      match takeUpToGt cs with
      | some (pre, rest) => some (c :: pre, rest)
      | none => none

/-- Step 1 matcher: `<!--.*?-->` with DOTALL (shortest comment span). -/
def commentStep (s : List Char) : Option (List Char × List Char) :=
  if ("<!--".data).isPrefixOf s then
    match afterFirst ("-->".data) (s.drop 4) with
    | some rest => some ([], rest)
    | none => none
  else none

/-- Step 2 matcher: `<script[^>]*>.*?</script>` (or style), case-insensitive,
DOTALL: the whole container and its content are removed. -/
def containerStep (openPat closePat : List Char) (s : List Char) :
    Option (List Char × List Char) :=
  if matchCI openPat s then
    match takeUpToGt (s.drop openPat.length) with
    | some (_, afterOpen) =>
      match afterFirstCI closePat afterOpen with
      | some rest => some ([], rest)
      | none => none
    | none => none
  else none

/-- Step 3 matcher: `</?TAG>` case-insensitive, replaced by
`match.replace(TAG, repl)` — a case-sensitive textual replace inside the
match, exactly as the Python lambda does. -/
def renameStep (tag repl : List Char) (s : List Char) :
    Option (List Char × List Char) :=
  match s with
  | '<' :: rest =>
    let (slashChars, rest2) :=
      match rest with
      | '/' :: r => (['/'], r)
      | r => (([] : List Char), r)
    if matchCI tag rest2 then
      match rest2.drop tag.length with
      | '>' :: rest3 =>
        let matched := '<' :: slashChars ++ rest2.take tag.length ++ ['>']
        some (replaceAll tag repl matched, rest3)
      | _ => none
    else none
  | _ => none

/-- The `href\s*=\s*["']([^"']+)["']` search, anchored: returns the captured
href value. -/
def hrefAt (s : List Char) : Option (List Char) :=
  if matchCI ("href".data) s then
    match (s.drop 4).dropWhile isPySpace with
    | '=' :: s2 =>
      match s2.dropWhile isPySpace with
      | q :: s4 =>
        if q = '"' || q = '\'' then
          let cap := s4.takeWhile fun c => c ≠ '"' && c ≠ '\''
          match s4.drop cap.length with
          | q2 :: _ =>
            if (q2 = '"' || q2 = '\'') && !cap.isEmpty then some cap else none
          | [] => none
        else none
      | [] => none
    | _ => none
  else none

/-- `re.search` for the href pattern: try each position left to right. -/
def hrefSearch : List Char → Option (List Char)
  | [] => none
  | c :: cs =>
    match hrefAt (c :: cs) with
    | some cap => some cap
    | none => hrefSearch cs

/-- The href escaping of `clean_a_tag`:
`.replace('&','&amp;').replace('<','&lt;').replace('>','&gt;')` (charwise,
since the replacements introduce none of the remaining targets). -/
def escAmpLtGt : List Char → List Char
  | [] => []
  | '&' :: cs => "&amp;".data ++ escAmpLtGt cs
  | '<' :: cs => "&lt;".data ++ escAmpLtGt cs
  | '>' :: cs => "&gt;".data ++ escAmpLtGt cs
  | c :: cs => c :: escAmpLtGt cs

/-- `clean_a_tag`: keep only a quoted href (with `& < >` escaped), else a
bare `<a>`. -/
def cleanATag (matched : List Char) : List Char :=
  match hrefSearch matched with
  | some href => ("<a href=\"".data) ++ escAmpLtGt href ++ ("\">".data)
  | none => "<a>".data

/-- Step 4 matcher: `<a[^>]*>` case-insensitive, rewritten via
`clean_a_tag`. -/
def aTagStep (s : List Char) : Option (List Char × List Char) :=
  if matchCI ("<a".data) s then
    match takeUpToGt (s.drop 2) with
    | some (pre, rest) => some (cleanATag (s.take 2 ++ pre ++ ['>']), rest)
    | none => none
  else none

/-- Anchored match length for the opening pattern
`<TAG(?:\s[^>]*)?>|<TAG>` of `_remove_orphaned_closing_tags`. -/
def matchOpenTag (tag : List Char) (s : List Char) : Option ℕ :=
  if matchCI ('<' :: tag) s then
    match s.drop (1 + tag.length) with
    | '>' :: _ => some (1 + tag.length + 1)
    | c :: cs =>
      if isPySpace c then
        let pre := cs.takeWhile (· ≠ '>')
        match cs.drop pre.length with
        | '>' :: _ => some (1 + tag.length + 1 + pre.length + 1)
        | _ => none
      else none
    | [] => none
  else none

/-- Anchored match length for the closing pattern `</TAG>`. -/
def matchCloseTag (tag : List Char) (s : List Char) : Option ℕ :=
  if matchCI ('<' :: '/' :: tag ++ ['>']) s then some (tag.length + 3) else none

/-- `re.finditer`: non-overlapping matches with their start positions and
lengths, scanning left to right. -/
def findMatches (m : List Char → Option ℕ) : ℕ → List Char → ℕ → List (ℕ × ℕ)
  | 0, _, _ => []
  | _, [], _ => []
  | fuel + 1, s, pos =>
    match m s with
    | some len => (pos, len) :: findMatches m fuel (s.drop len) (pos + len)
    | none => findMatches m fuel s.tail (pos + 1)

/-- Merge of the opening and closing match lists by start position (the
`tags.sort(key=...)` of `_remove_orphaned_closing_tags`); the Bool marks a
closing tag.  Fuel is the total length. -/
def mergeTagListsFuel : ℕ → List (ℕ × ℕ) → List (ℕ × ℕ) → List (ℕ × ℕ × Bool)
  | 0, os, cs =>
    os.map (fun p => (p.1, p.2, false)) ++ cs.map fun p => (p.1, p.2, true)
  | _ + 1, [], cs => cs.map fun p => (p.1, p.2, true)
  | _ + 1, os, [] => os.map fun p => (p.1, p.2, false)
  | fuel + 1, o :: os, c :: cs =>
    if o.1 ≤ c.1 then (o.1, o.2, false) :: mergeTagListsFuel fuel os (c :: cs)
    else (c.1, c.2, true) :: mergeTagListsFuel fuel (o :: os) cs

/-- Merge at full fuel. -/
def mergeTagLists (os cs : List (ℕ × ℕ)) : List (ℕ × ℕ × Bool) :=
  mergeTagListsFuel (os.length + cs.length) os cs

/-- The open-count walk marking orphaned closing tags (their spans). -/
def orphanSpans : List (ℕ × ℕ × Bool) → ℕ → List (ℕ × ℕ)
  | [], _ => []
  | (st, len, isClosing) :: rest, openCount =>
    if isClosing then
      if 0 < openCount then orphanSpans rest (openCount - 1)
      else (st, len) :: orphanSpans rest 0
    else orphanSpans rest (openCount + 1)

/-- Remove a sorted list of disjoint spans from the text. -/
def removeSpansGo : List Char → ℕ → List (ℕ × ℕ) → List Char
  | s, _, [] => s
  | s, pos, (st, len) :: rest =>
    s.take (st - pos) ++ removeSpansGo (s.drop (st - pos + len)) (st + len) rest

/-- `_remove_orphaned_closing_tags`. -/
def remove_orphaned_closing_tags (s : List Char) (tag : List Char) : List Char :=
  let opens := findMatches (matchOpenTag tag) s.length s 0
  let closes := findMatches (matchCloseTag tag) s.length s 0
  removeSpansGo s 0 (orphanSpans (mergeTagLists opens closes) 0)

/-- Step 5 matcher: `<TAG[^>]*>` → `<TAG>` (attributes dropped). -/
def stripAttrsOpenStep (tag : List Char) (s : List Char) :
    Option (List Char × List Char) :=
  if matchCI ('<' :: tag) s then
    match takeUpToGt (s.drop (1 + tag.length)) with
    | some (_, rest) => some ('<' :: tag ++ ['>'], rest)
    | none => none
  else none

/-- Step 5 matcher: `</TAG[^>]*>` → `</TAG>`. -/
def stripAttrsCloseStep (tag : List Char) (s : List Char) :
    Option (List Char × List Char) :=
  if matchCI ('<' :: '/' :: tag) s then
    match takeUpToGt (s.drop (2 + tag.length)) with
    | some (_, rest) => some ('<' :: '/' :: tag ++ ['>'], rest)
    | none => none
  else none

/-- Step 5: both subs for each of b, i, u, s, code, pre, in that order. -/
def stripAttrsForTags : List (List Char) → List Char → List Char
  | [], t => t
  | tag :: rest, t =>
    let t := scanRewrite (stripAttrsOpenStep tag) t.length t
    let t := scanRewrite (stripAttrsCloseStep tag) t.length t
    stripAttrsForTags rest t

/-- Step 6 matcher for `<[^>]+>`: the full matched tag text and the rest. -/
def anyTagStep (s : List Char) : Option (List Char × List Char) :=
  match s with
  | '<' :: rest =>
    match takeUpToGt rest with
    | some (pre, after) =>
      if pre.isEmpty then none else some ('<' :: pre ++ ['>'], after)
    | none => none
  | _ => none

/-- The `re.match(r"</?(?:b|i|u|s|code|pre|a)", ...)` prefix test of
`protect_allowed_tag` (note: a prefix match only, with no boundary after the
name). -/
def allowedTagContent (matched : List Char) : Bool :=
  match matched with
  | '<' :: rest =>
    let rest2 :=
      match rest with
      | '/' :: r => r
      | r => r
    ["b", "i", "u", "s", "code", "pre", "a"].any fun t => matchCI t.data rest2
  | _ => false

/-- The placeholder text for counter `i`. -/
def placeholderChars (i : ℕ) : List Char :=
  "__TAG_PLACEHOLDER_".data ++ (toString i).data ++ "__".data

/-- Step 6: protect the allowed tags behind placeholders and drop every other
tag; returns the rewritten text and the protected tag texts in counter
order. -/
def protectTags : ℕ → List Char → ℕ → List Char × List (List Char)
  | 0, s, _ => (s, [])
  | _, [], _ => ([], [])
  | fuel + 1, c :: cs, counter =>
    match anyTagStep (c :: cs) with
    | some (matched, rest) =>
      if allowedTagContent matched then
        let (t, ps) := protectTags fuel rest (counter + 1)
        (placeholderChars counter ++ t, matched :: ps)
      else
        let (t, ps) := protectTags fuel rest counter
        (t, ps)
    | none =>
      let (t, ps) := protectTags fuel cs counter
      (c :: t, ps)

/-- Named entities understood by our model of `html.unescape` (the entities
`html.escape` emits and their close variants, with and without the trailing
semicolon, longest first as in the html5 longest-match rule).  Exotic named
entities are left unchanged; the inputs below use none. -/
def namedEntities : List (List Char × Char) :=
  [("amp;".data, '&'), ("amp".data, '&'), ("lt;".data, '<'), ("lt".data, '<'),
    ("gt;".data, '>'), ("gt".data, '>'), ("quot;".data, '"'),
    ("quot".data, '"'), ("apos;".data, '\'')]

/-- Numeric value of a hex digit. -/
def hexDigitVal (c : Char) : ℕ :=
  if c.isDigit then c.toNat - 48
  else if 'a' ≤ c ∧ c ≤ 'f' then c.toNat - 87
  else c.toNat - 55

/-- Value of a digit list in the given base. -/
def digitsVal (base : ℕ) (ds : List Char) : ℕ :=
  ds.foldl (fun acc c => acc * base + hexDigitVal c) 0

/-- Matcher for one entity at `&`: numeric `&#...;?` / `&#x...;?` references
and the named entities above. -/
def entityStep (s : List Char) : Option (List Char × List Char) :=
  match s with
  | '&' :: '#' :: rest =>
    let (base, rest2) :=
      match rest with
      | 'x' :: r => (16, r)
      | 'X' :: r => (16, r)
      | r => (10, r)
    let ds := rest2.takeWhile fun c =>
      if base = 16 then c.isDigit || ('a' ≤ c && c ≤ 'f') || ('A' ≤ c && c ≤ 'F')
      else c.isDigit
    if ds.isEmpty then none
    else
      let rest3 := rest2.drop ds.length
      let rest4 :=
        match rest3 with
        | ';' :: r => r
        | r => r
      some ([Char.ofNat (digitsVal base (ds.map Char.toLower))], rest4)
  | '&' :: rest =>
    match namedEntities.find? (fun p => p.1.isPrefixOf rest) with
    | some (pat, c) => some ([c], rest.drop pat.length)
    | none => none
  | _ => none

/-- Our model of `html.unescape`, restricted to the entities above. -/
def unescapeHtml (s : List Char) : List Char :=
  scanRewrite entityStep s.length s

/-- `html.escape(text)` with the default `quote=True` (charwise, matching
CPython's replace order `& < > " '`). -/
def escapeHtml : List Char → List Char
  | [] => []
  | '&' :: cs => "&amp;".data ++ escapeHtml cs
  | '<' :: cs => "&lt;".data ++ escapeHtml cs
  | '>' :: cs => "&gt;".data ++ escapeHtml cs
  | '"' :: cs => "&quot;".data ++ escapeHtml cs
  | '\'' :: cs => "&#x27;".data ++ escapeHtml cs
  | c :: cs => c :: escapeHtml cs

/-- Step 8: restore each placeholder in counter order by a global
`str.replace`. -/
def restoreTags : ℕ → List (List Char) → List Char → List Char
  | _, [], s => s
  | i, content :: rest, s =>
    restoreTags (i + 1) rest (replaceAll (placeholderChars i) content s)

/-- A tag occurrence found by the `_balance_html_tags` pattern
`<(/?)([a-zA-Z]+)(?:\s[^>]*)?>`. -/
structure BalTag where
  start : ℕ
  len : ℕ
  isClosing : Bool
  name : List Char
deriving DecidableEq, Repr

/-- Anchored match for the `_balance_html_tags` tag pattern, returning length,
closing flag and lowercase name. -/
def matchBalTag (s : List Char) : Option (ℕ × Bool × List Char) :=
  match s with
  | '<' :: rest =>
    let (isClosing, rest2, consumed) :=
      match rest with
      | '/' :: r => (true, r, 2)
      | r => (false, r, 1)
    let name := rest2.takeWhile Char.isAlpha
    if name.isEmpty then none
    else
      match rest2.drop name.length with
      | '>' :: _ => some (consumed + name.length + 1, isClosing, name.map Char.toLower)
      | c :: cs =>
        if isPySpace c then
          let pre := cs.takeWhile (· ≠ '>')
          match cs.drop pre.length with
          | '>' :: _ =>
            some (consumed + name.length + 1 + pre.length + 1, isClosing,
              name.map Char.toLower)
          | _ => none
        else none
      | [] => none
  | _ => none

/-- `re.finditer` for the balance tag pattern. -/
def findBalTags : ℕ → List Char → ℕ → List BalTag
  | 0, _, _ => []
  | _, [], _ => []
  | fuel + 1, s, pos =>
    match matchBalTag s with
    | some (len, isClosing, name) =>
      ⟨pos, len, isClosing, name⟩ :: findBalTags fuel (s.drop len) (pos + len)
    | none => findBalTags fuel s.tail (pos + 1)

/-- The paired tags of `_balance_html_tags`. -/
def pairedTags : List (List Char) :=
  ["b", "i", "u", "s", "code", "pre"].map String.data

/-- Pop the stack down to the topmost occurrence of `name`: the popped-above
names (top first) and the remaining stack below the match, when present. -/
def popUntil : List (List Char) → List Char → Option (List (List Char) × List (List Char))
  | [], _ => none
  | n :: rest, name =>
    if n = name then some ([], rest)
    else
      match popUntil rest name with
      | some (above, below) => some (n :: above, below)
      | none => none

/-- A generated closing tag `</name>`. -/
def closeTagText (name : List Char) : List Char :=
  '<' :: '/' :: name ++ ['>']

/-- The stack walk of `_balance_html_tags`: self-closing `a` tags pass
through, closing paired tags close every tag opened above their match (or are
dropped when unmatched), and the stack is closed out at the end. -/
def balanceGo : List Char → ℕ → List BalTag → List (List Char) → List Char
  | s, _, [], stack => s ++ (stack.map closeTagText).flatten
  | s, lastPos, tag :: rest, stack =>
    let pre := s.take (tag.start - lastPos)
    let matched := (s.drop (tag.start - lastPos)).take tag.len
    let s2 := s.drop (tag.start - lastPos + tag.len)
    if tag.name = "a".data then
      pre ++ matched ++ balanceGo s2 (tag.start + tag.len) rest stack
    else if tag.isClosing then
      match popUntil stack tag.name with
      | some (above, below) =>
        pre ++ (above.map closeTagText).flatten ++ matched ++
          balanceGo s2 (tag.start + tag.len) rest below
      | none => pre ++ balanceGo s2 (tag.start + tag.len) rest stack
    else
      pre ++ matched ++ balanceGo s2 (tag.start + tag.len) rest (tag.name :: stack)

/-- `_balance_html_tags`. -/
def balance_html_tags (s : List Char) : List Char :=
  let tags := (findBalTags s.length s 0).filter fun t =>
    t.name ∈ pairedTags || t.name = "a".data
  balanceGo s 0 tags []

/-- Step 10 matcher: `[ \t]+` → a single space. -/
def spaceTabStep (s : List Char) : Option (List Char × List Char) :=
  match s with
  | c :: _ =>
    if c = ' ' || c = '\t' then
      let run := s.takeWhile fun c => c = ' ' || c = '\t'
      some ([' '], s.drop run.length)
    else none
  | [] => none

/-- Step 10 matcher: `\n\s*\n\s*\n+` → two newlines.  A match is a
whitespace run starting at a newline and containing at least three newlines;
greediness makes it end just after the run's last newline. -/
def newlineStep (s : List Char) : Option (List Char × List Char) :=
  match s with
  | '\n' :: _ =>
    let run := s.takeWhile isPySpace
    if 3 ≤ run.count '\n' then
      let len := run.length - (run.reverse.takeWhile (· ≠ '\n')).length
      some ("\n\n".data, s.drop len)
    else none
  | _ => none

/-- Python `str.strip()` on the ASCII range. -/
def pyStrip (s : List Char) : List Char :=
  ((s.dropWhile isPySpace).reverse.dropWhile isPySpace).reverse

/-- `sanitize_html_for_telegram`, the full pipeline. -/
def sanitize_html_for_telegram (s : List Char) : List Char :=
  if s.isEmpty then []
  else
    let t := scanRewrite commentStep s.length s
    let t := scanRewrite (containerStep ("<script".data) ("</script>".data)) t.length t
    let t := scanRewrite (containerStep ("<style".data) ("</style>".data)) t.length t
    let t := scanRewrite (renameStep ("strong".data) ("b".data)) t.length t
    let t := scanRewrite (renameStep ("em".data) ("i".data)) t.length t
    let t := scanRewrite (renameStep ("ins".data) ("u".data)) t.length t
    let t := scanRewrite (renameStep ("strike".data) ("s".data)) t.length t
    let t := scanRewrite (renameStep ("del".data) ("s".data)) t.length t
    let t := scanRewrite aTagStep t.length t
    let t := remove_orphaned_closing_tags t ("a".data)
    let t := stripAttrsForTags pairedTags t
    let protected1 := protectTags t.length t 0
    let t := escapeHtml (unescapeHtml protected1.1)
    let t := restoreTags 0 protected1.2 t
    let t := balance_html_tags t
    let t := scanRewrite spaceTabStep t.length t
    let t := scanRewrite newlineStep t.length t
    pyStrip t

/-- The tag names (lowercased) occurring in a text, read off with the same
syntactic tag pattern `_balance_html_tags` uses; this is the notion of "tags
contained in the output" used to state the sanitizer claims. -/
def outputTagNames (s : List Char) : List (List Char) :=
  (findBalTags s.length s 0).map BalTag.name

/-- The Telegram-allowed tag set of the specification. -/
def allowedTagNames : List (List Char) :=
  ["b", "i", "u", "s", "code", "pre", "a"].map String.data

/-! ## Claim-side predicates -/

/-- The selection predicate of the delta engine, as the claims state it: the
item has a `pub_date` strictly newer than `last_notified_at`. -/
def isNewItem (t : ℕ) (it : RSSItem) : Bool :=
  match it.pub_date with
  | some d => decide (t < d)
  | none => false

/-- The ordering property C4 claims of a check trace: every notification
attempt precedes the state-update commit. -/
def notifyPrecedesCommit (trace : List CheckEvent) : Prop :=
  ∀ i j : Fin trace.length,
    (trace.get i).isNotify = true → (trace.get j).isCommit = true →
      (i : ℕ) < (j : ℕ)

/-! ## Concrete instances used by the claim theorems -/

/-- For C3's counterexample: a breaker with the default configuration after
five failures on resource "u" at time 0. -/
def cbAfterFive : CircuitBreaker :=
  (((((CircuitBreaker.init 5 3600).record_failure "u" 0).record_failure "u" 0).record_failure
      "u" 0).record_failure "u" 0).record_failure "u" 0

/-- For C3's counterexample: the breaker after the open timeout expires at
time 3600 and `should_allow_request` flips "u" to half-open. -/
def cbHalfOpen : CircuitBreaker :=
  (cbAfterFive.should_allow_request "u" 3600).2

/-- A concrete half-open breaker for the amended C3 witness. -/
def cbHalfOpenW : CircuitBreaker :=
  { CircuitBreaker.init 5 3600 with
      states := updFn (fun _ => none) "u" (some .halfOpen)
      open_until := updFn (fun _ => none) "u" (some 100) }

/-- Concrete items for the C1 witness: a popularity-ordered feed whose newest
item sits at position 2. -/
def itemC1a : RSSItem := { id := "a", title := "A", link := "", pub_date := some 10 }

/-- Second concrete C1 item. -/
def itemC1b : RSSItem := { id := "b", title := "B", link := "", pub_date := some 5 }

/-- Third concrete C1 item (the only strictly newer one). -/
def itemC1c : RSSItem := { id := "c", title := "C", link := "", pub_date := some 15 }

/-- Concrete feed for the C1 witness. -/
def feedC1 : RSSFeed := { items := [itemC1a, itemC1b, itemC1c] }

/-- Concrete rate limiter for the C6 witness: the default configuration. -/
def rlW : RateLimiter := RateLimiter.init 5 300

/-- Concrete feed row for the C4 counterexample: one previously seen feed. -/
def feedC4 : Feed :=
  { id := "f1", chat_id := "1", name := "N", url := "u",
    last_item_id := some "a", last_notified_at := some 10 }

/-- Concrete fetched feed for the C4 counterexample: one new item. -/
def fetchC4 : RSSFeed :=
  { items := [{ id := "b", title := "B", link := "", pub_date := some 20 }] }

/-- The event trace of the C4 counterexample check. -/
def traceC4 : List CheckEvent :=
  (check_feed feedC4 (some fetchC4) 100 (fun _ => true) (fun _ => true)).1

/-- Concrete feed row for the C5 witness: never observed before. -/
def feedC5 : Feed :=
  { id := "f2", chat_id := "1", name := "M", url := "u2" }

/-- Concrete fetched feed for the C5 witness. -/
def fetchC5 : RSSFeed :=
  { items := [{ id := "p", title := "P", link := "", pub_date := some 42 },
      { id := "q", title := "Q", link := "", pub_date := some 41 }] }

/-- Rate limiter for the C2 counterexample: current delay 10 s for
"x.test". -/
def rlC2 : RateLimiter :=
  { RateLimiter.init 5 300 with domain_delays := updFn (fun _ => none) "x.test" (some 10) }

/-- Fetch-state for the C2 counterexample. -/
def stC2 : FetchState := ⟨rlC2, CircuitBreaker.init 5 3600, fun _ => none⟩

/-- Non-empty cached feed available at the 304 for the C2 counterexample. -/
def cachedC2 : CachedFeed :=
  { items := [{ id := "i", title := "T", link := "", pub_date := some 1 }] }

/-- Environment for the C2 counterexample: the server answers 304. -/
def envC2 : FetchEnv :=
  { initial_cached := none, cached_at_304 := fun _ => some cachedC2,
    outcome := fun _ => .response { status := 304 }, user_agent := fun _ => "UA",
    now := 0 }

/-- Environment for the C10 witness: every attempt times out. -/
def envC10 : FetchEnv :=
  { initial_cached := none, cached_at_304 := fun _ => none,
    outcome := fun _ => .timeout, user_agent := fun _ => "UA", now := 0 }

/-- Fresh fetch-state for the C10 witness. -/
def stC10 : FetchState :=
  ⟨RateLimiter.init 5 300, CircuitBreaker.init 5 3600, fun _ => none⟩

/-! ## Helper lemmas -/

theorem collectNewItems_eq_filter (items : List RSSItem) (t : ℕ) :
    collectNewItems items t = items.filter (isNewItem t) := by
  induction items with
  | nil => rfl
  | cons it rest ih =>
    cases h : it.pub_date with
    | none => simp [collectNewItems, isNewItem, h, ih]
    | some d =>
      by_cases hd : t < d
      · simp [collectNewItems, isNewItem, h, hd, ih]
      · simp [collectNewItems, isNewItem, h, hd, ih]

theorem newerLE_trans (a b c : RSSItem) :
    newerLE a b = true → newerLE b c = true → newerLE a c = true := by
  simp only [newerLE, decide_eq_true_eq]
  omega

theorem newerLE_total (a b : RSSItem) : (newerLE a b || newerLE b a) = true := by
  simp only [newerLE, Bool.or_eq_true, decide_eq_true_eq]
  omega

theorem get_new_items_some_eq (feed : RSSFeed) (first : RSSItem)
    (rest : List RSSItem) (lastId : Option String) (t : ℕ)
    (hitems : feed.items = first :: rest) (hid : strFalsy lastId = false) :
    get_new_items (some feed) lastId (some t) =
      { items := (collectNewItems feed.items t).mergeSort newerLE
        totalItemsCount := feed.items.length
        lastItemIdToSave := none
        firstItemId := some first.id } := by
  obtain ⟨items, ftitle, fdesc, flink⟩ := feed
  dsimp only at hitems ⊢
  subst hitems
  unfold get_new_items
  simp only [hid, Bool.false_eq_true, if_false]
  by_cases hne : (collectNewItems (first :: rest) t).isEmpty = true
  · rw [if_pos hne]
    rw [List.isEmpty_iff] at hne
    rw [hne, List.mergeSort_nil]
  · rw [if_neg hne]

/-! ## C9: record_success resets the breaker -/

/-- C9: for every resource and every prior breaker state, `record_success`
sets the state to closed, resets the failure count to 0 and removes the
`open_until` entry, so `should_allow_request` returns true immediately
afterwards. -/
theorem breaker_record_success_resets (cb : CircuitBreaker) (feed_id : String)
    (now : ℚ) :
    (cb.record_success feed_id).get_state feed_id = .closed ∧
    (cb.record_success feed_id).failure_counts feed_id = some 0 ∧
    (cb.record_success feed_id).open_until feed_id = none ∧
    ((cb.record_success feed_id).should_allow_request feed_id now).1 = true := by
  refine ⟨?_, ?_, ?_, ?_⟩ <;>
    simp [CircuitBreaker.record_success, CircuitBreaker.get_state,
      CircuitBreaker.should_allow_request, updFn]

/-! ## C3: half-open failure and the reopen timeout -/

/-- C3 counterexample: on the reachable path (half-open entered because
`open_until` expired), a half-open failure re-opens with `initial_timeout`
(3600 s), not with double the previous timeout (7200 s) as the claim
states. -/
theorem breaker_halfopen_failure_counterexample :
    cbAfterFive.get_state "u" = .opened ∧
    cbAfterFive.open_until "u" = some 3600 ∧
    (cbAfterFive.should_allow_request "u" 3600).1 = true ∧
    cbHalfOpen.get_state "u" = .halfOpen ∧
    (cbHalfOpen.record_failure "u" 3600).get_state "u" = .opened ∧
    (cbHalfOpen.record_failure "u" 3600).open_until "u" = some 7200 ∧
    (7200 : ℚ) ≠ 3600 + min 86400 (2 * 3600) := by
  refine ⟨?_, ?_, ?_, ?_, ?_, ?_, ?_⟩ <;>
    norm_num [cbHalfOpen, cbAfterFive, CircuitBreaker.record_failure,
      CircuitBreaker.init, updFn, CircuitBreaker.get_state,
      CircuitBreaker.should_allow_request]

/-- C3, amended: in half-open state `record_failure` transitions the resource
back to open; when the remaining time `open_until − now` is positive the new
timeout is double that remainder capped at `max_timeout`, and otherwise — in
particular whenever half-open was entered because `open_until` had already
passed — the new timeout is exactly `initial_timeout`, so successive
half-open failures do not grow the timeout. -/
theorem breaker_halfopen_failure_reopens (cb : CircuitBreaker)
    (feed_id : String) (now : ℚ)
    (hstate : cb.get_state feed_id = .halfOpen) :
    (cb.record_failure feed_id now).get_state feed_id = .opened ∧
    (cb.record_failure feed_id now).open_until feed_id =
      some (now +
        (if 0 < (cb.open_until feed_id).getD now - now then
          min cb.max_timeout (((cb.open_until feed_id).getD now - now) * 2)
        else cb.initial_timeout)) ∧
    ((cb.open_until feed_id).getD now ≤ now →
      (cb.record_failure feed_id now).open_until feed_id =
        some (now + cb.initial_timeout)) := by
  rw [CircuitBreaker.get_state] at hstate
  unfold CircuitBreaker.record_failure
  rw [hstate]
  refine ⟨?_, ?_, ?_⟩
  · simp [CircuitBreaker.get_state, updFn]
  · simp [updFn]
  · intro hle
    simp only [updFn, if_pos rfl]
    rw [if_neg (by linarith : ¬ (0 : ℚ) < (cb.open_until feed_id).getD now - now)]
    simp

/-- Witness for the amended C3 theorem at a concrete half-open breaker. -/
theorem breaker_halfopen_failure_reopens_witness :
    cbHalfOpenW.get_state "u" = .halfOpen ∧
    (cbHalfOpenW.record_failure "u" 150).open_until "u" = some 3750 := by
  refine ⟨by decide, ?_⟩
  have h := breaker_halfopen_failure_reopens cbHalfOpenW "u" 150 (by decide)
  have h3 := h.2.2 (by norm_num [cbHalfOpenW, CircuitBreaker.init, updFn])
  rw [h3]
  norm_num [cbHalfOpenW, CircuitBreaker.init]

/-! ## C1: strict-newer selection in get_new_items -/

/-- C1: for every fetched feed with a non-empty item list, a present
`last_item_id` and a present `last_notified_at`, `get_new_items` returns
exactly the items whose `pub_date` strictly exceeds `last_notified_at`
(items without a `pub_date` are skipped), sorted by `pub_date` descending,
with `firstItemId` the id of the feed's first item; an item whose `pub_date`
equals `last_notified_at` is never returned. -/
theorem get_new_items_strict_newer (feed : RSSFeed) (first : RSSItem)
    (rest : List RSSItem) (lastId : Option String) (t : ℕ)
    (hitems : feed.items = first :: rest) (hid : strFalsy lastId = false) :
    ((get_new_items (some feed) lastId (some t)).items).Perm
        (feed.items.filter (isNewItem t)) ∧
    List.Pairwise (fun a b => sortKey b ≤ sortKey a)
        ((get_new_items (some feed) lastId (some t)).items) ∧
    (∀ it ∈ (get_new_items (some feed) lastId (some t)).items,
        ∃ d, it.pub_date = some d ∧ t < d) ∧
    (∀ it ∈ (get_new_items (some feed) lastId (some t)).items,
        it.pub_date ≠ some t) ∧
    (get_new_items (some feed) lastId (some t)).firstItemId = some first.id := by
  rw [get_new_items_some_eq feed first rest lastId t hitems hid]
  dsimp only
  refine ⟨?_, ?_, ?_, ?_, rfl⟩
  · refine (List.mergeSort_perm _ _).trans ?_
    rw [collectNewItems_eq_filter]
  · have hs := @List.sorted_mergeSort RSSItem newerLE
      (fun a b c => newerLE_trans a b c) (fun a b => newerLE_total a b)
      (collectNewItems feed.items t)
    exact hs.imp fun {a b} h => by simpa [newerLE] using h
  · intro it hit
    rw [List.mem_mergeSort, collectNewItems_eq_filter, List.mem_filter] at hit
    obtain ⟨-, hp⟩ := hit
    unfold isNewItem at hp
    cases h : it.pub_date with
    | none => rw [h] at hp; simp at hp
    | some d =>
      rw [h] at hp
      simp only [decide_eq_true_eq] at hp
      exact ⟨d, rfl, hp⟩
  · intro it hit
    rw [List.mem_mergeSort, collectNewItems_eq_filter, List.mem_filter] at hit
    obtain ⟨-, hp⟩ := hit
    intro hcon
    unfold isNewItem at hp
    rw [hcon] at hp
    simp at hp

/-- Witness for C1 at a concrete popularity-ordered feed with
`last_notified_at = 10`. -/
theorem get_new_items_strict_newer_witness :
    feedC1.items = itemC1a :: [itemC1b, itemC1c] ∧
    strFalsy (some "a") = false ∧
    (((get_new_items (some feedC1) (some "a") (some 10)).items).Perm
        (feedC1.items.filter (isNewItem 10)) ∧
      List.Pairwise (fun a b => sortKey b ≤ sortKey a)
        ((get_new_items (some feedC1) (some "a") (some 10)).items) ∧
      (∀ it ∈ (get_new_items (some feedC1) (some "a") (some 10)).items,
          ∃ d, it.pub_date = some d ∧ 10 < d) ∧
      (∀ it ∈ (get_new_items (some feedC1) (some "a") (some 10)).items,
          it.pub_date ≠ some 10) ∧
      (get_new_items (some feedC1) (some "a") (some 10)).firstItemId =
        some itemC1a.id) :=
  ⟨rfl, rfl,
    get_new_items_strict_newer feedC1 itemC1a [itemC1b, itemC1c]
      (some "a") 10 rfl rfl⟩

/-! ## C6: rate limiter multipliers and delay invariant -/

theorem get_current_delay_bounds (rl : RateLimiter) (domain : String)
    (hinv : rl.DelayInv) :
    rl.min_delay ≤ rl.get_current_delay domain ∧
      rl.get_current_delay domain ≤ rl.max_delay := by
  obtain ⟨h0, hmm, hq⟩ := hinv
  unfold RateLimiter.get_current_delay
  cases h : rl.domain_delays domain with
  | none => exact ⟨le_refl _, hmm⟩
  | some q => exact hq domain q h

/-- C6: `record_failure` multiplies the current delay by 2 for 429, by 3 for
403 with at least three consecutive failures (after increment), and by 1.5
otherwise, clamped at `max_delay`; `record_success` sets the delay to
`max(min_delay, current × 0.9)` and zeroes the failure count; both operations
preserve `min_delay ≤ current_delay ≤ max_delay`. -/
theorem rate_limiter_multipliers_and_invariant (rl : RateLimiter)
    (domain : String) (status_code : ℕ) (hinv : rl.DelayInv) :
    (status_code = 429 →
      (rl.record_failure domain status_code).domain_delays domain =
        some (min rl.max_delay (rl.get_current_delay domain * 2))) ∧
    (status_code = 403 → 3 ≤ (rl.failure_counts domain).getD 0 + 1 →
      (rl.record_failure domain status_code).domain_delays domain =
        some (min rl.max_delay (rl.get_current_delay domain * 3))) ∧
    (status_code ≠ 429 →
      ¬(status_code = 403 ∧ 3 ≤ (rl.failure_counts domain).getD 0 + 1) →
      (rl.record_failure domain status_code).domain_delays domain =
        some (min rl.max_delay (rl.get_current_delay domain * (3 / 2)))) ∧
    (rl.record_failure domain status_code).failure_counts domain =
      some ((rl.failure_counts domain).getD 0 + 1) ∧
    (rl.record_success domain).domain_delays domain =
      some (max rl.min_delay (rl.get_current_delay domain * (9 / 10))) ∧
    (rl.record_success domain).failure_counts domain = some 0 ∧
    (rl.record_failure domain status_code).DelayInv ∧
    (rl.record_success domain).DelayInv := by
  obtain ⟨hd, hD⟩ := get_current_delay_bounds rl domain hinv
  obtain ⟨h0, hmm, hq⟩ := hinv
  have hd0 : 0 ≤ rl.get_current_delay domain := le_trans h0 hd
  have hdg : rl.min_delay ≤ (rl.domain_delays domain).getD rl.min_delay := hd
  have hDg : (rl.domain_delays domain).getD rl.min_delay ≤ rl.max_delay := hD
  have hd0g : 0 ≤ (rl.domain_delays domain).getD rl.min_delay := hd0
  refine ⟨?_, ?_, ?_, ?_, ?_, ?_, ?_, ?_⟩
  · intro h429
    simp only [RateLimiter.record_failure, updFn]
    rw [if_pos trivial, if_pos h429]
    rfl
  · intro h403 hcnt
    subst h403
    simp only [RateLimiter.record_failure, updFn]
    rw [if_pos trivial, if_neg (by decide), if_pos ⟨trivial, hcnt⟩]
    rfl
  · intro hne hnot
    simp only [RateLimiter.record_failure, updFn]
    rw [if_pos trivial, if_neg hne, if_neg hnot]
    rfl
  · simp only [RateLimiter.record_failure, updFn]
    rw [if_pos trivial]
  · simp only [RateLimiter.record_success, updFn]
    rw [if_pos trivial]
    rfl
  · simp only [RateLimiter.record_success, updFn]
    rw [if_pos trivial]
  · refine ⟨h0, hmm, ?_⟩
    intro d' q h'
    simp only [RateLimiter.record_failure, updFn] at h' ⊢
    by_cases hd' : d' = domain
    · rw [if_pos hd', Option.some.injEq] at h'
      subst h'
      constructor
      · split_ifs <;> refine le_min hmm ?_ <;> nlinarith [hdg, hd0g]
      · split_ifs <;> exact min_le_left _ _
    · rw [if_neg hd'] at h'
      exact hq d' q h'
  · refine ⟨h0, hmm, ?_⟩
    intro d' q h'
    simp only [RateLimiter.record_success, updFn] at h' ⊢
    by_cases hd' : d' = domain
    · rw [if_pos hd', Option.some.injEq] at h'
      subst h'
      exact ⟨le_max_left _ _, max_le hmm (by nlinarith [hDg, hd0g])⟩
    · rw [if_neg hd'] at h'
      exact hq d' q h'

/-- Witness for C6 at the default rate limiter, domain "x.test", status
429. -/
theorem rate_limiter_multipliers_witness :
    rlW.DelayInv ∧
    ((429 = 429 →
      (rlW.record_failure "x.test" 429).domain_delays "x.test" =
        some (min rlW.max_delay (rlW.get_current_delay "x.test" * 2))) ∧
    (429 = 403 → 3 ≤ (rlW.failure_counts "x.test").getD 0 + 1 →
      (rlW.record_failure "x.test" 429).domain_delays "x.test" =
        some (min rlW.max_delay (rlW.get_current_delay "x.test" * 3))) ∧
    (429 ≠ 429 →
      ¬(429 = 403 ∧ 3 ≤ (rlW.failure_counts "x.test").getD 0 + 1) →
      (rlW.record_failure "x.test" 429).domain_delays "x.test" =
        some (min rlW.max_delay (rlW.get_current_delay "x.test" * (3 / 2)))) ∧
    (rlW.record_failure "x.test" 429).failure_counts "x.test" =
      some ((rlW.failure_counts "x.test").getD 0 + 1) ∧
    (rlW.record_success "x.test").domain_delays "x.test" =
      some (max rlW.min_delay (rlW.get_current_delay "x.test" * (9 / 10))) ∧
    (rlW.record_success "x.test").failure_counts "x.test" = some 0 ∧
    (rlW.record_failure "x.test" 429).DelayInv ∧
    (rlW.record_success "x.test").DelayInv) := by
  have hinv : rlW.DelayInv :=
    ⟨by norm_num [rlW, RateLimiter.init], by norm_num [rlW, RateLimiter.init],
      fun d q h => by simp [rlW, RateLimiter.init] at h⟩
  exact ⟨hinv, rate_limiter_multipliers_and_invariant rlW "x.test" 429 hinv⟩

/-! ## C4: commit versus notification order in check_feed -/

theorem notifyLoop_all_notify (feed : Feed) (now : ℕ) (htmlOk plainOk : RSSItem → Bool) :
    ∀ items, ∀ e ∈ (notifyLoop feed now htmlOk plainOk items).1, e.isNotify = true := by
  intro items
  induction items with
  | nil => intro e he; simp [notifyLoop] at he
  | cons it rest ih =>
    intro e he
    simp only [notifyLoop] at he
    split at he
    · exact ih e he
    · split at he
      · simp only [List.mem_cons] at he
        rcases he with h1 | h1
        · subst h1; rfl
        · exact ih e h1
      · split at he <;>
        · simp only [List.mem_cons] at he
          rcases he with h1 | h1 | h1
          · subst h1; rfl
          · subst h1; rfl
          · exact ih e h1

/-- C4 counterexample: with one new item, the check's trace is the commit
followed by the notification attempt, so the claimed order (notifications
before the commit) fails. -/
theorem check_feed_commit_order_counterexample :
    traceC4 =
      [CheckEvent.commit (some "b") (some 20), CheckEvent.notifyHtml "b"] ∧
    ¬ notifyPrecedesCommit traceC4 := by
  have htr : traceC4 =
      [CheckEvent.commit (some "b") (some 20), CheckEvent.notifyHtml "b"] := by
    simp +decide [traceC4, check_feed, feedC4, fetchC4, get_new_items, strFalsy,
      collectNewItems, notifyLoop, natFalsy]
  refine ⟨htr, ?_⟩
  rw [notifyPrecedesCommit, htr]
  decide

/-- C4, amended: in every execution of `check_feed` the state-update commit
is the first event of the trace and every later event is a notification
attempt — the commit precedes the notifications (and, being inside the
check, completes before the next tick considers the feed). -/
theorem check_feed_commit_precedes_notifications (feed : Feed)
    (fetchResult : Option RSSFeed) (now : ℕ) (htmlOk plainOk : RSSItem → Bool) :
    ∃ u ln rest, (check_feed feed fetchResult now htmlOk plainOk).1 =
        CheckEvent.commit u ln :: rest ∧ ∀ e ∈ rest, e.isNotify = true := by
  unfold check_feed
  exact ⟨_, _, _, rfl, notifyLoop_all_notify feed now htmlOk plainOk _⟩

/-! ## C5: first observation establishes a baseline -/

/-- C5: on the first observation of a feed (no `last_item_id`) whose fetch
yields a non-empty item list, the check sends no notifications, commits
`last_item_id = first item's id` and `last_notified_at = first item's
pub_date` (falling back to the current time when it has none). -/
theorem check_feed_first_observation (feed : Feed) (f : RSSFeed)
    (first : RSSItem) (rest : List RSSItem) (now : ℕ)
    (htmlOk plainOk : RSSItem → Bool)
    (hnone : feed.last_item_id = none) (hitems : f.items = first :: rest)
    (hid : strFalsy (some first.id) = false) :
    (check_feed feed (some f) now htmlOk plainOk).1 =
      [CheckEvent.commit (some first.id) (some (first.pub_date.getD now))] ∧
    (check_feed feed (some f) now htmlOk plainOk).2.1 =
      (some first.id, some (first.pub_date.getD now)) ∧
    (check_feed feed (some f) now htmlOk plainOk).2.2 = 0 := by
  have hg : get_new_items (some f) feed.last_item_id
      (match feed.last_notified_at with
        | some d => some d
        | none => feed.last_seen_at) =
      { items := [], totalItemsCount := f.items.length,
        lastItemIdToSave := some first.id, firstItemId := some first.id } := by
    obtain ⟨items, a, b, c⟩ := f
    dsimp only at hitems ⊢
    subst hitems
    rw [hnone]
    unfold get_new_items
    simp [strFalsy]
  simp only [check_feed]
  rw [hg]
  simp [hid, hitems, notifyLoop]

/-- Witness for C5 at a concrete first observation. -/
theorem check_feed_first_observation_witness :
    feedC5.last_item_id = none ∧
    fetchC5.items =
      ({ id := "p", title := "P", link := "", pub_date := some 42 } : RSSItem) ::
        [{ id := "q", title := "Q", link := "", pub_date := some 41 }] ∧
    ((check_feed feedC5 (some fetchC5) 100 (fun _ => true) (fun _ => true)).1 =
      [CheckEvent.commit (some "p") (some 42)] ∧
    (check_feed feedC5 (some fetchC5) 100 (fun _ => true) (fun _ => true)).2.1 =
      (some "p", some 42) ∧
    (check_feed feedC5 (some fetchC5) 100 (fun _ => true) (fun _ => true)).2.2 = 0) :=
  ⟨rfl, rfl,
    check_feed_first_observation feedC5 fetchC5
      { id := "p", title := "P", link := "", pub_date := some 42 }
      [{ id := "q", title := "Q", link := "", pub_date := some 41 }]
      100 (fun _ => true) (fun _ => true) rfl rfl rfl⟩

/-! ## C2 and C10: fetcher paths -/

theorem record_request_failure_zero_counters (db : StatsDb) (domain : String)
    (delay : Option ℚ) (cbs : Option String) :
    ((record_request_failure db domain 0 delay cbs) domain).map
        BlockingStats.total_requests =
      some ((get_or_create_stats db domain).total_requests + 1) ∧
    ((record_request_failure db domain 0 delay cbs) domain).map
        BlockingStats.blocked_requests =
      some ((get_or_create_stats db domain).blocked_requests) ∧
    ((record_request_failure db domain 0 delay cbs) domain).map
        BlockingStats.rate_limited_requests =
      some ((get_or_create_stats db domain).rate_limited_requests) := by
  cases delay <;>
    simp only [record_request_failure, updFn, if_pos rfl,
      show ((0 : ℕ) = 403) = False by simp, show ((0 : ℕ) = 429) = False by simp,
      if_false] <;>
    split_ifs <;> exact ⟨rfl, rfl, rfl⟩

/-- C2, amended: when a fetch receives a 304 Not Modified and a non-empty
cached feed exists, the fetcher returns the cached feed as a success, but it
records nothing: the rate limiter's delays and failure counts and the
persistent stats are unchanged (so `current_delay` is *not* multiplied by
0.9) and no collaborator calls are made. -/
theorem fetch_304_with_cache_no_success_recorded
    (env : FetchEnv) (url : String) (st : FetchState) (resp : HttpResponse)
    (c : CachedFeed)
    (hallow : st.cb.should_allow_request url env.now = (true, st.cb))
    (hcache : env.initial_cached = none)
    (hout : env.outcome 1 = .response resp)
    (hstatus : resp.status = 304)
    (h304 : env.cached_at_304 1 = some c)
    (hne : c.items.isEmpty = false) :
    (fetch_feed_from_url env url st).1 =
      { success := true
        feed := some { items := c.items, title := c.title
                       description := c.description, link := c.link } } ∧
    (fetch_feed_from_url env url st).2.1.rl.domain_delays =
      st.rl.domain_delays ∧
    (fetch_feed_from_url env url st).2.1.rl.failure_counts =
      st.rl.failure_counts ∧
    (fetch_feed_from_url env url st).2.1.stats = st.stats ∧
    (fetch_feed_from_url env url st).2.2 = [] := by
  simp only [fetch_feed_from_url]
  rw [hallow]
  simp only [hcache, fetchLoop, fetchAttempt]
  rw [hout]
  simp only [hstatus, h304, hne, if_pos rfl, Bool.not_true, Bool.false_eq_true,
    if_false, RateLimiter.wait_if_needed]
  refine ⟨?_, ?_, ?_, ?_, ?_⟩ <;> rfl

/-- C2 counterexample: the 304-with-cache fetch succeeds with the cached feed
but leaves `current_delay` at 10, whereas the claimed success recording would
have decayed it to `max(5, 10 × 0.9) = 9`. -/
theorem fetch_304_counterexample :
    (fetch_feed_from_url envC2 "http://x.test/feed.xml" stC2).1.success = true ∧
    (fetch_feed_from_url envC2 "http://x.test/feed.xml" stC2).1.feed =
      some { items := cachedC2.items } ∧
    (fetch_feed_from_url envC2 "http://x.test/feed.xml" stC2).2.1.rl.get_current_delay
        "x.test" = 10 ∧
    (10 : ℚ) ≠ max 5 (10 * (9 / 10)) := by
  refine ⟨?_, ?_, ?_, by norm_num⟩ <;>
    simp +decide [envC2, stC2, rlC2, cachedC2, fetch_feed_from_url, fetchLoop,
      fetchAttempt, CircuitBreaker.should_allow_request, CircuitBreaker.init,
      RateLimiter.wait_if_needed, RateLimiter.get_current_delay,
      RateLimiter.init, updFn]

/-- Witness for the amended C2 theorem at the concrete 304 environment. -/
theorem fetch_304_with_cache_witness :
    stC2.cb.should_allow_request "http://x.test/feed.xml" envC2.now =
      (true, stC2.cb) ∧
    envC2.initial_cached = none ∧
    envC2.outcome 1 = .response { status := 304 } ∧
    ({ status := 304 } : HttpResponse).status = 304 ∧
    envC2.cached_at_304 1 = some cachedC2 ∧
    cachedC2.items.isEmpty = false ∧
    ((fetch_feed_from_url envC2 "http://x.test/feed.xml" stC2).1 =
      { success := true
        feed := some { items := cachedC2.items, title := cachedC2.title
                       description := cachedC2.description, link := cachedC2.link } } ∧
    (fetch_feed_from_url envC2 "http://x.test/feed.xml" stC2).2.1.rl.domain_delays =
      stC2.rl.domain_delays ∧
    (fetch_feed_from_url envC2 "http://x.test/feed.xml" stC2).2.1.rl.failure_counts =
      stC2.rl.failure_counts ∧
    (fetch_feed_from_url envC2 "http://x.test/feed.xml" stC2).2.1.stats = stC2.stats ∧
    (fetch_feed_from_url envC2 "http://x.test/feed.xml" stC2).2.2 = []) :=
  ⟨rfl, rfl, rfl, rfl, rfl, rfl,
    fetch_304_with_cache_no_success_recorded envC2 "http://x.test/feed.xml" stC2
      { status := 304 } cachedC2 rfl rfl rfl rfl rfl rfl⟩

/-- C10: a timed-out attempt is recorded as a failure with status code 0: the
rate limiter applies the generic ×1.5 multiplier (status 0 matches neither
the 429 nor the 403 branch) and the persistent stats increment only
`total_requests`, leaving `blocked_requests` and `rate_limited_requests`
unchanged. -/
theorem fetch_timeout_generic_failure (env : FetchEnv) (url domain : String)
    (attempt : ℕ) (st : FetchState)
    (hout : env.outcome attempt = .timeout) :
    (fetchAttempt env url domain attempt st).1 = none ∧
    (fetchAttempt env url domain attempt st).2.2.1.rl =
      st.rl.record_failure domain 0 ∧
    (st.rl.record_failure domain 0).domain_delays domain =
      some (min st.rl.max_delay (st.rl.get_current_delay domain * (3 / 2))) ∧
    ((fetchAttempt env url domain attempt st).2.2.1.stats domain).map
        BlockingStats.total_requests =
      some ((get_or_create_stats st.stats domain).total_requests + 1) ∧
    ((fetchAttempt env url domain attempt st).2.2.1.stats domain).map
        BlockingStats.blocked_requests =
      some ((get_or_create_stats st.stats domain).blocked_requests) ∧
    ((fetchAttempt env url domain attempt st).2.2.1.stats domain).map
        BlockingStats.rate_limited_requests =
      some ((get_or_create_stats st.stats domain).rate_limited_requests) ∧
    FetchEvent.statsFailure domain 0 ∈ (fetchAttempt env url domain attempt st).2.2.2 := by
  have hstats := record_request_failure_zero_counters st.stats domain
    (some ((st.rl.record_failure domain 0).get_current_delay domain))
    (some (stateStr ((st.cb.record_failure url env.now).get_state url)))
  simp only [fetchAttempt]
  rw [hout]
  simp only [handleTimeout]
  refine ⟨by first | rfl | trivial, by first | rfl | trivial,
    by simp [RateLimiter.record_failure, updFn, RateLimiter.get_current_delay],
    hstats.1, hstats.2.1, hstats.2.2, by simp⟩

/-- Witness for C10 at a concrete timed-out attempt. -/
theorem fetch_timeout_witness :
    envC10.outcome 1 = .timeout ∧
    ((fetchAttempt envC10 "http://x.test/f.xml" "x.test" 1 stC10).1 = none ∧
    (fetchAttempt envC10 "http://x.test/f.xml" "x.test" 1 stC10).2.2.1.rl =
      stC10.rl.record_failure "x.test" 0 ∧
    (stC10.rl.record_failure "x.test" 0).domain_delays "x.test" =
      some (min stC10.rl.max_delay (stC10.rl.get_current_delay "x.test" * (3 / 2))) ∧
    ((fetchAttempt envC10 "http://x.test/f.xml" "x.test" 1 stC10).2.2.1.stats
        "x.test").map BlockingStats.total_requests =
      some ((get_or_create_stats stC10.stats "x.test").total_requests + 1) ∧
    ((fetchAttempt envC10 "http://x.test/f.xml" "x.test" 1 stC10).2.2.1.stats
        "x.test").map BlockingStats.blocked_requests =
      some ((get_or_create_stats stC10.stats "x.test").blocked_requests) ∧
    ((fetchAttempt envC10 "http://x.test/f.xml" "x.test" 1 stC10).2.2.1.stats
        "x.test").map BlockingStats.rate_limited_requests =
      some ((get_or_create_stats stC10.stats "x.test").rate_limited_requests) ∧
    FetchEvent.statsFailure "x.test" 0 ∈
      (fetchAttempt envC10 "http://x.test/f.xml" "x.test" 1 stC10).2.2.2) :=
  ⟨rfl, fetch_timeout_generic_failure envC10 "http://x.test/f.xml" "x.test" 1 stC10 rfl⟩

/-! ## C7 and C8: sanitizer evaluations -/

set_option maxRecDepth 10000

/-- Fidelity check: the specification's own sanitizer scenario (orphan
`</i>` removed, `</em>`/`</u>` reordered, script stripped, `onclick`
dropped, `&` escaped) evaluates in the embedding exactly as the spec and the
Python implementation state. -/
theorem sanitizer_spec_scenario :
    sanitize_html_for_telegram
        ("Hello <script>x</script><strong>A</strong> <em>B<u>C</em></u> <a href=\"http://x?a=1&b=2\" onclick=\"...\">L</a> </i>".data) =
      ("Hello <b>A</b> <i>B<u>C</u></i> <a href=\"http://x?a=1&amp;b=2\">L</a>".data) := by
  decide

/-- C7: the sanitizer's allowed-tag filter matches the tag name only as a
prefix (`re.match(r"</?(?:b|i|u|s|code|pre|a)", ...)`), so the unsupported
closing tag `</abbr>` is protected as if it were `</a>` and survives to the
output unchanged — the output is not restricted to the allowed tag set. -/
theorem sanitizer_leaks_disallowed_tag :
    sanitize_html_for_telegram ("x</abbr>y".data) = ("x</abbr>y".data) ∧
    outputTagNames (sanitize_html_for_telegram ("x</abbr>y".data)) =
      [("abbr".data)] ∧
    ("abbr".data) ∉ allowedTagNames := by
  refine ⟨by decide, by decide, by decide⟩

/-- C8: `clean_a_tag` escapes `&` in an href without first unescaping, so a
second sanitization turns `&amp;` into `&amp;amp;` — sanitization is not
idempotent. -/
theorem sanitizer_not_idempotent :
    sanitize_html_for_telegram ("<a href=\"http://x?a=1&b=2\">L</a>".data) =
      ("<a href=\"http://x?a=1&amp;b=2\">L</a>".data) ∧
    sanitize_html_for_telegram
        (sanitize_html_for_telegram ("<a href=\"http://x?a=1&b=2\">L</a>".data)) =
      ("<a href=\"http://x?a=1&amp;amp;b=2\">L</a>".data) ∧
    sanitize_html_for_telegram
        (sanitize_html_for_telegram ("<a href=\"http://x?a=1&b=2\">L</a>".data)) ≠
      sanitize_html_for_telegram ("<a href=\"http://x?a=1&b=2\">L</a>".data) := by
  refine ⟨by decide, by decide, by decide⟩
